import Mathlib

/-!
# Shallow embedding of the CRUX socket engine

This file embeds the per-connection transport engine of
`src/include/maidsafe/crux/socket.hpp` (MaidSafe-CRUX) in Lean 4 and proves
the frozen claims about it.

The socket state is modelled as a record of the data members of
`maidsafe::crux::socket`; each member function becomes a Lean function from
the socket state (plus its arguments) to the new state together with a list
of observable events (substrate sends, handler completions, debug
assertion failures).  Asynchronous completions whose outcome depends on the
substrate are parameterised by that outcome.

Components of the repository that are only declared in `socket.hpp` but
whose definitions are not under `src/` (`detail::sequence_number`,
`detail::transmit_queue`, `detail::multiplexer`) are modelled from the
specification; their doc comments say so explicitly.
-/

namespace Crux

/-- Sequence-number width `W = 32` (the recommended width; `socket.hpp` uses
`sequence_number<std::uint32_t>` via `socket_base`). -/
def seqMod : Nat := 2 ^ 32

/-- Modelled from the spec: `detail::sequence_number::next` (the header
`detail/sequence_number.hpp` is not under `src/`): `next(s) = (s+1) mod 2^W`. -/
def seqNext (s : Nat) : Nat := (s + 1) % seqMod

/-- Modelled from the spec: modular less-than of `detail::sequence_number`
(header not under `src/`): `less(a, b) = ((b - a) mod 2^W) ∈ (0, 2^(W-1)]`. -/
def seqLess (a b : Nat) : Bool :=
  let d := (b % seqMod + seqMod - a % seqMod) % seqMod
  decide (0 < d) && decide (d ≤ 2 ^ 31)

/-- Modular less-or-equal on sequence numbers: modular equality or `seqLess`. -/
def seqLessEq (a b : Nat) : Bool :=
  (a % seqMod == b % seqMod) || seqLess a b

/-- An IPv4 or IPv6 address, carried as its numeric value.  The unspecified
(wildcard) address has value `0`; the IPv4 loopback is `127.0.0.1` =
`0x7f000001`; the IPv6 loopback is `::1` = `1`. -/
inductive IpAddress
  | v4 (value : Nat)
  | v6 (value : Nat)
deriving DecidableEq, Repr

namespace IpAddress

def is_unspecified : IpAddress → Bool
  | .v4 value => value == 0
  | .v6 value => value == 0

def is_v4 : IpAddress → Bool
  | .v4 _ => true
  | .v6 _ => false

def is_v6 : IpAddress → Bool
  | .v4 _ => false
  | .v6 _ => true

/-- `boost::asio::ip::address_v4::loopback()`, i.e. `127.0.0.1`. -/
def v4_loopback : IpAddress := .v4 0x7f000001

/-- `boost::asio::ip::address_v6::loopback()`, i.e. `::1`. -/
def v6_loopback : IpAddress := .v6 1

end IpAddress

/-- An (address, port) pair, `socket_base::endpoint_type`. -/
structure Endpoint where
  address : IpAddress
  port : Nat
deriving DecidableEq, Repr

/-- Error conditions observable through completion handlers.  `ok` is the
default-constructed (success) `boost::system::error_code`; `substrate n`
stands for an arbitrary lower-layer error. -/
inductive ErrorCode
  | ok
  | invalid_argument
  | already_connected
  | already_started
  | not_connected
  | cancelled
  | substrate (n : Nat)
deriving DecidableEq, Repr

/-- Connection state, `socket_base::connectivity`. -/
inductive Connectivity
  | closed
  | listening
  | connecting
  | handshaking
  | established
deriving DecidableEq, Repr

/-- An entry of the transmit queue: the allocated sequence number and the
byte size recorded with it (`transmit_queue::push(sequence, size, ...)`). -/
structure TransmitEntry where
  seq : Nat
  size : Nat
deriving DecidableEq, Repr

/-- `detail::receive_input_type`: a pending application read request; we keep
the total byte length of its destination buffers. -/
structure ReceiveInput where
  buffer_size : Nat
deriving DecidableEq, Repr

/-- `detail::receive_output_type`: a received payload awaiting a read
request; `data` is the stored `shared_ptr<detail::buffer>` (`none` models a
null pointer). -/
structure ReceiveOutput where
  error : ErrorCode
  data : Option (List Nat)
deriving DecidableEq, Repr

/-- Observable events of one socket operation, in program order:
substrate sends performed through the multiplexer, multiplexer registration,
receive-loop arming, handler completions, and debug assertion failures. -/
inductive Event
  | sentHandshake (dest : Endpoint) (seq : Nat) (ack : Option Nat)
  | sentKeepalive (dest : Endpoint) (seq : Nat) (ack : Option Nat)
  | sentData (dest : Endpoint) (seq : Nat) (ack : Option Nat) (size : Nat)
  | multiplexerAdd (remote : Endpoint)
  | startReceive
  | connectCompleted (error : ErrorCode)
  | readCompleted (error : ErrorCode) (bytes : Nat)
  | writeCompleted (error : ErrorCode) (bytes : Nat)
  | assertFailed
deriving DecidableEq, Repr

/-- Whether an event is substrate activity (a datagram send or arming the
substrate receive). -/
def Event.isSubstrate : Event → Bool
  | .sentHandshake _ _ _ => true
  | .sentKeepalive _ _ _ => true
  | .sentData _ _ _ _ => true
  | .startReceive => true
  | _ => false

/-- The data members of `maidsafe::crux::socket`.  `multiplexer` records
whether the `shared_ptr<detail::multiplexer>` is non-null (the socket is
bound); `connect_handler` records whether the optional connect handler is
engaged. -/
structure Socket where
  multiplexer : Bool
  state : Connectivity
  remote : Endpoint
  next_sequence : Nat
  last_remote_sequence : Option Nat
  receive_input_queue : List ReceiveInput
  receive_output_queue : List ReceiveOutput
  connect_handler : Bool
  transmit_queue : List TransmitEntry
deriving DecidableEq, Repr

/-- Modelled from the spec: `transmit_queue::push` (header
`detail/transmit_queue.hpp` is not under `src/`): enqueues an entry and, if
it is the head, schedules its `send_step` immediately (yielding
`sendEvents`); otherwise the send waits until prior entries are
acknowledged. -/
def transmit_queue_push (q : List TransmitEntry) (e : TransmitEntry)
    (sendEvents : List Event) : List TransmitEntry × List Event :=
  (q ++ [e], if q.isEmpty then sendEvents else [])

/-- Modelled from the spec: `transmit_queue::apply_ack` (header
`detail/transmit_queue.hpp` is not under `src/`): removes every entry whose
sequence is modularly ≤ the acked value and invokes each removed entry's
completion with success and its recorded size.  (Re-arming of the new head's
`send_step` is not modelled.) -/
def transmit_queue_apply_ack (q : List TransmitEntry) (ack : Nat) :
    List TransmitEntry × List Event :=
  (q.filter (fun e => !(seqLessEq e.seq ack)),
   (q.filter (fun e => seqLessEq e.seq ack)).map
     (fun e => Event.writeCompleted ErrorCode.ok e.size))

/-- `socket::is_expected_packet` (socket.hpp:242): accept only a sequence
equal to `last_remote_sequence->next()` when `last_remote_sequence` is
engaged; accept everything otherwise. -/
def is_expected_packet (s : Socket) (seq : Nat) : Bool :=
  match s.last_remote_sequence with
  | some last => if seqNext last != seq then false else true
  | none => true

/-- `socket::send_keepalive` (socket.hpp:629): allocate
`sequence = next_sequence++` and send a KEEPALIVE datagram through the
multiplexer.  Returns the new state, the allocated sequence, and the
events. -/
def send_keepalive (s : Socket) (remote_endpoint : Endpoint)
    (ack : Option Nat) : Socket × Nat × List Event :=
  let sequence := s.next_sequence
  ({ s with next_sequence := seqNext s.next_sequence },
   sequence,
   [Event.sentKeepalive remote_endpoint sequence ack])

/-- `socket::send_handshake` (socket.hpp:590): allocate
`sequence = next_sequence++`, arm the receive loop, and push a
zero-size entry onto the transmit queue whose `send_step` sends a
HANDSHAKE datagram. -/
def send_handshake (s : Socket) (remote_endpoint : Endpoint)
    (ack : Option Nat) : Socket × Nat × List Event :=
  let sequence := s.next_sequence
  let s2 := { s with next_sequence := seqNext s.next_sequence }
  let pushed := transmit_queue_push s2.transmit_queue ⟨sequence, 0⟩
      [Event.sentHandshake remote_endpoint sequence ack]
  ({ s2 with transmit_queue := pushed.1 },
   sequence,
   Event.startReceive :: pushed.2)

/-- `socket::send_data` (socket.hpp:650): allocate
`sequence = next_sequence++`, arm the receive loop, and push an entry of the
payload's byte size onto the transmit queue whose `send_step` sends a DATA
datagram carrying `ack = last_remote_sequence` (read at send time). -/
def send_data (s : Socket) (remote_endpoint : Endpoint)
    (payload : List Nat) : Socket × Nat × List Event :=
  let sequence := s.next_sequence
  let s2 := { s with next_sequence := seqNext s.next_sequence }
  let pushed := transmit_queue_push s2.transmit_queue ⟨sequence, payload.length⟩
      [Event.sentData remote_endpoint sequence s2.last_remote_sequence
        payload.length]
  ({ s2 with transmit_queue := pushed.1 },
   sequence,
   Event.startReceive :: pushed.2)

/-- `socket::process_data` (socket.hpp:551).  A datagram failing
`is_expected_packet` is dropped with no state change and no events.
Otherwise `last_remote_sequence` is set to the datagram's sequence; if no
read request is pending the payload is appended to `receive_output_queue`
(the source asserts the payload pointer is non-null and sized
`payload_size`), while if a read request is pending it is popped, a
KEEPALIVE carrying `ack = last_remote_sequence` is sent, and the read
handler is invoked with `(error, payload_size)` (the source asserts the
payload pointer is null in this branch, the bytes having been received
directly into the request's buffers).  Debug assertion failures are emitted
as `Event.assertFailed`. -/
def process_data (s : Socket) (error : ErrorCode) (sequence_number : Nat)
    (payload_size : Nat) (payload : Option (List Nat)) :
    Socket × List Event :=
  if !(is_expected_packet s sequence_number) then
    (s, [])
  else
    let s := { s with last_remote_sequence := some sequence_number }
    match s.receive_input_queue with
    | [] =>
      let assertEvents :=
        match payload with
        | some p => if p.length == payload_size then [] else [Event.assertFailed]
        | none => [Event.assertFailed]
      ({ s with receive_output_queue :=
           s.receive_output_queue ++ [⟨error, payload⟩] },
       assertEvents)
    | _input :: rest =>
      let assertEvents :=
        if payload.isNone then [] else [Event.assertFailed]
      let s := { s with receive_input_queue := rest }
      let ka := send_keepalive s s.remote s.last_remote_sequence
      (ka.1,
       assertEvents ++ ka.2.2 ++ [Event.readCompleted error payload_size])

/-- `socket::copy_buffers_and_process_receive` (socket.hpp:490): when there
is no error, `boost::asio::buffer_copy` copies
`min(user_buffer_size, payload size)` bytes of the payload into the user's
buffers; then `process_receive` invokes the read handler with the error and
`payload->size()`.  Returns the bytes written into the user's buffers and
the events. -/
def copy_buffers_and_process_receive (error : ErrorCode)
    (payload : List Nat) (user_buffer_size : Nat) :
    List Nat × List Event :=
  let copied := if error == ErrorCode.ok then payload.take user_buffer_size else []
  (copied, [Event.readCompleted error payload.length])

/-- `socket::async_receive` (socket.hpp:443): with no multiplexer, complete
with `not_connected` and 0 bytes; with an empty output queue, append the
request to `receive_input_queue` and arm the receive loop; otherwise pop the
front payload and hand it to `copy_buffers_and_process_receive`. -/
def async_receive (s : Socket) (user_buffer_size : Nat) :
    Socket × List Event :=
  if !s.multiplexer then
    (s, [Event.readCompleted ErrorCode.not_connected 0])
  else
    match s.receive_output_queue with
    | [] =>
      ({ s with receive_input_queue :=
           s.receive_input_queue ++ [⟨user_buffer_size⟩] },
       [Event.startReceive])
    | output :: rest =>
      let s := { s with receive_output_queue := rest }
      let copyResult := copy_buffers_and_process_receive output.error
          (output.data.getD []) user_buffer_size
      (s, copyResult.2)

/-- `socket::async_send` (socket.hpp:507): with no multiplexer, complete
with `not_connected` and 0 bytes; otherwise `send_data` to the recorded
remote endpoint. -/
def async_send (s : Socket) (payload : List Nat) : Socket × List Event :=
  if !s.multiplexer then
    (s, [Event.writeCompleted ErrorCode.not_connected 0])
  else
    let sd := send_data s s.remote payload
    (sd.1, sd.2.2)

/-- `socket::async_connect(endpoint)` (socket.hpp:260), synchronous part.
With no multiplexer, complete with `invalid_argument`.  In `closed`, rewrite
an unspecified target address to the loopback of its family, transition to
`connecting`, record the remote, register with the multiplexer, and
`send_handshake` with no ack (its completion, which fires when the queued
handshake resolves, is not part of this synchronous step).  In
`established`, complete with `already_connected`; in every other state,
complete with `already_started`. -/
def async_connect (s : Socket) (remote_endpoint : Endpoint) :
    Socket × List Event :=
  if !s.multiplexer then
    (s, [Event.connectCompleted ErrorCode.invalid_argument])
  else
    match s.state with
    | Connectivity.closed =>
      let remote_endpoint :=
        if remote_endpoint.address.is_unspecified then
          if remote_endpoint.address.is_v4 then
            { remote_endpoint with address := IpAddress.v4_loopback }
          else
            { remote_endpoint with address := IpAddress.v6_loopback }
        else remote_endpoint
      let s := { s with state := Connectivity.connecting,
                        remote := remote_endpoint }
      let hs := send_handshake s remote_endpoint none
      (hs.1, Event.multiplexerAdd remote_endpoint :: hs.2.2)
    | Connectivity.established =>
      (s, [Event.connectCompleted ErrorCode.already_connected])
    | _ =>
      (s, [Event.connectCompleted ErrorCode.already_started])

/-- The completion lambda of the `connecting` branch of
`socket::process_handshake` (socket.hpp:724): on the send's outcome, set the
state to `closed` on error and `established` on success, then fire the
connect handler (when engaged) with that outcome. -/
def process_handshake_connecting_done (s : Socket) (error : ErrorCode) :
    Socket × List Event :=
  let s := { s with state :=
    if error != ErrorCode.ok then Connectivity.closed
    else Connectivity.established }
  if s.connect_handler then (s, [Event.connectCompleted error]) else (s, [])

/-- The completion lambda of the `listening` branch of
`socket::process_handshake` (socket.hpp:698): on error, set `closed`; on
success, set `established`, record `last_remote_sequence = initial` and the
remote endpoint, and fire and disengage the connect handler when engaged. -/
def process_handshake_listening_done (s : Socket) (initial : Nat)
    (remote_endpoint : Endpoint) (error : ErrorCode) :
    Socket × List Event :=
  if error != ErrorCode.ok then
    ({ s with state := Connectivity.closed }, [])
  else
    let s := { s with state := Connectivity.established,
                      last_remote_sequence := some initial,
                      remote := remote_endpoint }
    if s.connect_handler then
      ({ s with connect_handler := false },
       [Event.connectCompleted error])
    else (s, [])

/-- `socket::process_handshake` (socket.hpp:688).  In `listening`, send a
HANDSHAKE with `ack = initial` through the transmit queue; in `connecting`,
transition to `handshaking` and send a KEEPALIVE with `ack = initial`.  The
branch completions fire asynchronously with the send's outcome:
`send_result = none` models the outcome still pending, `some e` composes the
completion with outcome `e`.  Every other state hits a debug assertion and
changes nothing. -/
def process_handshake (s : Socket) (initial : Nat)
    (remote_endpoint : Endpoint) (send_result : Option ErrorCode) :
    Socket × List Event :=
  match s.state with
  | Connectivity.listening =>
    let hs := send_handshake s remote_endpoint (some initial)
    match send_result with
    | none => (hs.1, hs.2.2)
    | some e =>
      let done := process_handshake_listening_done hs.1 initial
          remote_endpoint e
      (done.1, hs.2.2 ++ done.2)
  | Connectivity.connecting =>
    let s := { s with state := Connectivity.handshaking }
    let ka := send_keepalive s remote_endpoint (some initial)
    match send_result with
    | none => (ka.1, ka.2.2)
    | some e =>
      let done := process_handshake_connecting_done ka.1 e
      (done.1, ka.2.2 ++ done.2)
  | _ => (s, [Event.assertFailed])

/-- `socket::process_acknowledgement` (socket.hpp:748).  The switch only
transitions `handshaking` to `established` (with debug assertions in
`closed` and `connecting`); in every state the function then calls
`transmit_queue.apply_ack(ack)`. -/
def process_acknowledgement (s : Socket) (ack : Nat) :
    Socket × List Event :=
  let stepped : Socket × List Event :=
    match s.state with
    | Connectivity.established => (s, [])
    | Connectivity.handshaking =>
      ({ s with state := Connectivity.established }, [])
    | Connectivity.listening => (s, [])
    | Connectivity.closed => (s, [Event.assertFailed])
    | Connectivity.connecting => (s, [Event.assertFailed])
  let applied := transmit_queue_apply_ack stepped.1.transmit_queue ack
  ({ stepped.1 with transmit_queue := applied.1 },
   stepped.2 ++ applied.2)

/-! ## Sample states used by witnesses and counterexamples -/

/-- A loopback endpoint. -/
def loopEp : Endpoint := ⟨IpAddress.v4 0x7f000001, 5000⟩

/-- A peer endpoint. -/
def peerEp : Endpoint := ⟨IpAddress.v4 0x0a000001, 6000⟩

/-- An established, bound connection with no pending reads or payloads. -/
def estSock : Socket :=
  { multiplexer := true, state := Connectivity.established, remote := peerEp,
    next_sequence := 100, last_remote_sequence := some 5,
    receive_input_queue := [], receive_output_queue := [],
    connect_handler := false, transmit_queue := [] }

/-- An established connection with one pending application read request. -/
def readPendingSock : Socket :=
  { estSock with receive_input_queue := [⟨64⟩] }

/-- A freshly bound, closed connection. -/
def closedSock : Socket :=
  { multiplexer := true, state := Connectivity.closed, remote := loopEp,
    next_sequence := 100, last_remote_sequence := none,
    receive_input_queue := [], receive_output_queue := [],
    connect_handler := false, transmit_queue := [] }

/-- A connecting initiator with an engaged connect handler. -/
def connectingSock : Socket :=
  { closedSock with state := Connectivity.connecting, remote := peerEp,
                    connect_handler := true }

/-- A listening connection with one unacknowledged handshake in its
transmit queue. -/
def listeningSock : Socket :=
  { closedSock with state := Connectivity.listening,
                    transmit_queue := [⟨5, 0⟩] }

/-! ## Helper lemmas -/

/-- The modular successor of a sequence number never equals the number
itself (the sequence space has more than one element). -/
theorem seqNext_ne (n : Nat) : seqNext n ≠ n := by
  show (n + 1) % 4294967296 ≠ n
  omega

/-- Allocating a sequence strictly advances `next_sequence` in the modular
order of the spec. -/
theorem seqLess_seqNext (n : Nat) (h : n < seqMod) :
    seqLess n (seqNext n) = true := by
  have h' : n < 4294967296 := h
  show (decide (0 < ((n + 1) % 4294967296 % 4294967296 + 4294967296
          - n % 4294967296) % 4294967296)
        && decide (((n + 1) % 4294967296 % 4294967296 + 4294967296
          - n % 4294967296) % 4294967296 ≤ 2147483648)) = true
  simp only [Bool.and_eq_true, decide_eq_true_eq]
  omega

/-- `is_expected_packet` with an engaged `last_remote_sequence` is the
equality test against its successor. -/
theorem is_expected_packet_some (s : Socket) (last : Nat)
    (h : s.last_remote_sequence = some last) (seq : Nat) :
    is_expected_packet s seq = (seqNext last == seq) := by
  unfold is_expected_packet
  rw [h]
  by_cases hc : seqNext last = seq <;> simp [hc]

/-- `is_expected_packet` with `last_remote_sequence` disengaged accepts
everything. -/
theorem is_expected_packet_none (s : Socket)
    (h : s.last_remote_sequence = none) (seq : Nat) :
    is_expected_packet s seq = true := by
  unfold is_expected_packet
  rw [h]

/-! ## Claim theorems -/

/-- C1: Every inbound DATA datagram whose sequence differs from
`last_remote_sequence.next()` (when `last_remote_sequence` is engaged) is
dropped silently by `process_data`: the state is unchanged, nothing is
queued or delivered, and no event (in particular no error) is produced; a
duplicate carrying `last_remote_sequence` itself is such a datagram, so it
neither advances state nor delivers. -/
theorem process_data_out_of_order_drop (s : Socket) (last : Nat)
    (h : s.last_remote_sequence = some last) (error : ErrorCode)
    (seq payload_size : Nat) (payload : Option (List Nat)) :
    (seq ≠ seqNext last →
      process_data s error seq payload_size payload = (s, [])) ∧
    process_data s error last payload_size payload = (s, []) := by
  constructor
  · intro hseq
    unfold process_data
    rw [is_expected_packet_some s last h seq]
    have : (seqNext last == seq) = false := by
      simp [Ne.symm hseq]
    rw [this]
    rfl
  · unfold process_data
    rw [is_expected_packet_some s last h last]
    have : (seqNext last == last) = false := by
      simp [seqNext_ne last]
    rw [this]
    rfl

/-- C1 witness: a concrete established socket with
`last_remote_sequence = 5` drops both the out-of-order sequence `9` and the
duplicate sequence `5` without any state change or event. -/
theorem process_data_out_of_order_drop_witness :
    process_data estSock ErrorCode.ok 9 3 (some [1, 2, 3]) = (estSock, []) ∧
    process_data estSock ErrorCode.ok 5 3 (some [1, 2, 3]) = (estSock, []) :=
  ⟨(process_data_out_of_order_drop estSock 5 rfl ErrorCode.ok 9 3
      (some [1, 2, 3])).1 (by decide),
   (process_data_out_of_order_drop estSock 5 rfl ErrorCode.ok 5 3
      (some [1, 2, 3])).2⟩

/-- C10: While `last_remote_sequence` is disengaged, `is_expected_packet`
accepts every sequence, so the first inbound DATA datagram is accepted
regardless of its sequence value: `last_remote_sequence` becomes that
sequence, and afterwards `is_expected_packet` tests exactly against its
successor. -/
theorem first_packet_accepted_baseline (s : Socket)
    (h : s.last_remote_sequence = none) (error : ErrorCode)
    (seq payload_size : Nat) (payload : Option (List Nat)) :
    is_expected_packet s seq = true ∧
    (process_data s error seq payload_size payload).1.last_remote_sequence
      = some seq ∧
    ∀ seq2, is_expected_packet
        (process_data s error seq payload_size payload).1 seq2
      = (seqNext seq == seq2) := by
  refine ⟨is_expected_packet_none s h seq, ?_⟩
  have hlast :
      (process_data s error seq payload_size payload).1.last_remote_sequence
        = some seq := by
    unfold process_data
    rw [is_expected_packet_none s h seq]
    cases hq : s.receive_input_queue <;>
      simp [hq, send_keepalive]
  exact ⟨hlast, fun seq2 => is_expected_packet_some _ seq hlast seq2⟩

/-- C10 witness: on a concrete socket that has accepted nothing yet, the
first DATA datagram with the arbitrary sequence `77` is accepted and becomes
the baseline. -/
theorem first_packet_accepted_baseline_witness :
    is_expected_packet closedSock 77 = true ∧
    (process_data closedSock ErrorCode.ok 77 2
        (some [1, 2])).1.last_remote_sequence = some 77 ∧
    ∀ seq2, is_expected_packet
        (process_data closedSock ErrorCode.ok 77 2 (some [1, 2])).1 seq2
      = (seqNext 77 == seq2) :=
  first_packet_accepted_baseline closedSock rfl ErrorCode.ok 77 2
    (some [1, 2])

/-- C2 counterexample: on a concrete established socket with no pending
read request, an in-order DATA datagram (sequence `6 = next(5)`) is
accepted — `last_remote_sequence` advances and the payload joins the output
queue — yet no KEEPALIVE is emitted (the event list is empty) and
`next_sequence` is not incremented, contradicting the claim that every
accepted datagram emits a `KEEPALIVE(next_sequence++, ...)`. -/
theorem process_data_accept_without_keepalive :
    (process_data estSock ErrorCode.ok 6 3 (some [1, 2, 3])).1.last_remote_sequence
      = some 6 ∧
    (process_data estSock ErrorCode.ok 6 3 (some [1, 2, 3])).1.receive_output_queue
      = [⟨ErrorCode.ok, some [1, 2, 3]⟩] ∧
    (process_data estSock ErrorCode.ok 6 3 (some [1, 2, 3])).2 = [] ∧
    (process_data estSock ErrorCode.ok 6 3 (some [1, 2, 3])).1.next_sequence
      = estSock.next_sequence := by decide

/-- C2 (amended): an in-order DATA datagram accepted by `process_data`
advances `last_remote_sequence` to its sequence and stages the payload:
when no read request is pending, the payload is appended to the output
queue, with no KEEPALIVE (no substrate event, `next_sequence` unchanged);
only when a read request is pending is it completed and a
`KEEPALIVE(next_sequence++, ack = last_remote_sequence)` emitted. -/
theorem process_data_in_order_accept (s : Socket) (last seq : Nat)
    (h : s.last_remote_sequence = some last) (hseq : seq = seqNext last)
    (error : ErrorCode) (payload_size : Nat)
    (payload : Option (List Nat)) :
    (process_data s error seq payload_size payload).1.last_remote_sequence
      = some seq ∧
    (s.receive_input_queue = [] →
      (process_data s error seq payload_size payload).1.receive_output_queue
        = s.receive_output_queue ++ [⟨error, payload⟩] ∧
      (process_data s error seq payload_size payload).1.next_sequence
        = s.next_sequence ∧
      ∀ e ∈ (process_data s error seq payload_size payload).2,
        Event.isSubstrate e = false) ∧
    (∀ i rest, s.receive_input_queue = i :: rest → payload = none →
      (process_data s error seq payload_size payload).1.receive_input_queue
        = rest ∧
      (process_data s error seq payload_size payload).1.next_sequence
        = seqNext s.next_sequence ∧
      (process_data s error seq payload_size payload).2
        = [Event.sentKeepalive s.remote s.next_sequence (some seq),
           Event.readCompleted error payload_size]) := by
  have hexp : is_expected_packet s seq = true := by
    rw [is_expected_packet_some s last h seq, hseq]
    simp
  refine ⟨?_, ?_, ?_⟩
  · unfold process_data
    rw [hexp]
    cases hq : s.receive_input_queue <;> simp [hq, send_keepalive]
  · intro hq
    unfold process_data
    rw [hexp]
    simp only [Bool.not_true, Bool.false_eq_true, if_false, hq]
    cases payload with
    | none => simp [Event.isSubstrate]
    | some p =>
      by_cases hl : p.length = payload_size <;>
        simp [hl, Event.isSubstrate]
  · intro i rest hq hp
    unfold process_data
    rw [hexp]
    simp [hq, hp, send_keepalive]

/-- C2 witness: on a concrete socket with one pending 64-byte read request
and `last_remote_sequence = 5`, the in-order datagram with sequence `6`
pops the request, increments `next_sequence` from 100, and emits the
KEEPALIVE with sequence 100 and ack 6 followed by the read completion. -/
theorem process_data_in_order_accept_witness :
    (process_data readPendingSock ErrorCode.ok 6 7 none).1.receive_input_queue
      = [] ∧
    (process_data readPendingSock ErrorCode.ok 6 7 none).1.next_sequence
      = seqNext 100 ∧
    (process_data readPendingSock ErrorCode.ok 6 7 none).2
      = [Event.sentKeepalive peerEp 100 (some 6),
         Event.readCompleted ErrorCode.ok 7] :=
  (process_data_in_order_accept readPendingSock 5 6 rfl (by decide)
      ErrorCode.ok 7 none).2.2 ⟨64⟩ [] rfl rfl

/-- C3 counterexample: on a concrete socket in state `listening` with one
unacknowledged entry of sequence 5 in its transmit queue,
`process_acknowledgement 5` is not ignored: the entry is removed and its
completion fires, because the source calls `transmit_queue.apply_ack` in
every state after the switch. -/
theorem process_acknowledgement_listening_not_ignored :
    listeningSock.state = Connectivity.listening ∧
    (process_acknowledgement listeningSock 5).1.transmit_queue = [] ∧
    (process_acknowledgement listeningSock 5).2
      = [Event.writeCompleted ErrorCode.ok 0] := by decide

/-- C3 (amended): `process_acknowledgement(ack)` applies the ack via
`transmit_queue.apply_ack(ack)` in EVERY state, after a switch that only
transitions `Handshaking` to `Established` (with debug assertion events in
`Closed` and `Connecting`, treated as drop-and-ignore); no other field
changes, so processing is never fatal in release semantics. -/
theorem process_acknowledgement_spec (s : Socket) (ack : Nat) :
    (process_acknowledgement s ack).1.transmit_queue
      = (transmit_queue_apply_ack s.transmit_queue ack).1 ∧
    (process_acknowledgement s ack).1.state
      = (if s.state = Connectivity.handshaking then Connectivity.established
         else s.state) ∧
    (process_acknowledgement s ack).1.next_sequence = s.next_sequence ∧
    (process_acknowledgement s ack).1.last_remote_sequence
      = s.last_remote_sequence ∧
    (process_acknowledgement s ack).1.receive_input_queue
      = s.receive_input_queue ∧
    (process_acknowledgement s ack).1.receive_output_queue
      = s.receive_output_queue ∧
    (process_acknowledgement s ack).2
      = (if s.state = Connectivity.closed ∨ s.state = Connectivity.connecting
         then [Event.assertFailed] else [])
        ++ (transmit_queue_apply_ack s.transmit_queue ack).2 := by
  cases hst : s.state <;>
    simp [process_acknowledgement, hst]

/-- C4 counterexample: on a concrete socket in state `connecting` with
`last_remote_sequence` disengaged, `process_handshake` with peer initial
`42` and a successful substrate outcome leaves `last_remote_sequence`
disengaged — the source's `connecting` branch never records
`last_remote_sequence = peer_initial`. -/
theorem process_handshake_connecting_no_record :
    connectingSock.state = Connectivity.connecting ∧
    connectingSock.last_remote_sequence = none ∧
    (process_handshake connectingSock 42 peerEp
        (some ErrorCode.ok)).1.last_remote_sequence = none := by decide

/-- C4 (amended): `process_handshake(peer_initial, remote)` in state
`Connecting` transitions to `Handshaking` and sends a
`KEEPALIVE(next_sequence++, ack = peer_initial)`; while the substrate
outcome is pending the state stays `Handshaking`; on substrate success the
state becomes `Established` and the connect completion (when engaged) fires
with success; on substrate error the state becomes `Closed` and the
completion fires with that error.  `last_remote_sequence` is NOT recorded:
it keeps its previous value. -/
theorem process_handshake_connecting_spec (s : Socket) (initial : Nat)
    (remote_endpoint : Endpoint)
    (hst : s.state = Connectivity.connecting) :
    ((process_handshake s initial remote_endpoint none).1.state
       = Connectivity.handshaking ∧
     (process_handshake s initial remote_endpoint none).2
       = [Event.sentKeepalive remote_endpoint s.next_sequence
            (some initial)]) ∧
    (∀ e : ErrorCode,
      (process_handshake s initial remote_endpoint (some e)).1.state
        = (if e = ErrorCode.ok then Connectivity.established
           else Connectivity.closed) ∧
      (process_handshake s initial remote_endpoint (some e)).1.last_remote_sequence
        = s.last_remote_sequence ∧
      (process_handshake s initial remote_endpoint (some e)).1.next_sequence
        = seqNext s.next_sequence ∧
      (process_handshake s initial remote_endpoint (some e)).2
        = Event.sentKeepalive remote_endpoint s.next_sequence (some initial)
          :: (if s.connect_handler then [Event.connectCompleted e]
              else [])) := by
  constructor
  · constructor <;>
      simp [process_handshake, hst, send_keepalive]
  · intro e
    by_cases he : e = ErrorCode.ok <;>
      by_cases hch : s.connect_handler = true <;>
        simp [process_handshake, hst, send_keepalive,
              process_handshake_connecting_done, he, hch]

/-- C4 witness: the concrete connecting socket (engaged connect handler,
`next_sequence = 100`) stays in `Handshaking` while the send is pending;
with a successful outcome it reaches `Established`, keeps
`last_remote_sequence = none`, and fires the connect completion with
success after the KEEPALIVE `100 : ack 42`. -/
theorem process_handshake_connecting_spec_witness :
    ((process_handshake connectingSock 42 peerEp none).1.state
       = Connectivity.handshaking ∧
     (process_handshake connectingSock 42 peerEp none).2
       = [Event.sentKeepalive peerEp 100 (some 42)]) ∧
    ((process_handshake connectingSock 42 peerEp
        (some ErrorCode.ok)).1.state
       = (if ErrorCode.ok = ErrorCode.ok then Connectivity.established
          else Connectivity.closed) ∧
     (process_handshake connectingSock 42 peerEp
        (some ErrorCode.ok)).1.last_remote_sequence
       = connectingSock.last_remote_sequence ∧
     (process_handshake connectingSock 42 peerEp
        (some ErrorCode.ok)).1.next_sequence = seqNext 100 ∧
     (process_handshake connectingSock 42 peerEp (some ErrorCode.ok)).2
       = Event.sentKeepalive peerEp 100 (some 42)
         :: (if connectingSock.connect_handler
             then [Event.connectCompleted ErrorCode.ok] else [])) :=
  ⟨(process_handshake_connecting_spec connectingSock 42 peerEp rfl).1,
   (process_handshake_connecting_spec connectingSock 42 peerEp rfl).2
     ErrorCode.ok⟩

/-- C5: `async_connect(remote_endpoint)` fails with `invalid_argument` and
performs no substrate activity when the socket has no local bind; fails
with `already_connected` in `Established`; fails with `already_started` in
any other non-`Closed` state; and only in `Closed` proceeds: it transitions
to `Connecting`, records the remote, registers with the multiplexer, and
sends an initial HANDSHAKE carrying a fresh sequence and no ack. -/
theorem async_connect_spec (s : Socket) (remote_endpoint : Endpoint) :
    (s.multiplexer = false →
      async_connect s remote_endpoint
        = (s, [Event.connectCompleted ErrorCode.invalid_argument]) ∧
      ∀ e ∈ (async_connect s remote_endpoint).2,
        Event.isSubstrate e = false) ∧
    (s.multiplexer = true → s.state = Connectivity.established →
      async_connect s remote_endpoint
        = (s, [Event.connectCompleted ErrorCode.already_connected])) ∧
    (s.multiplexer = true → s.state ≠ Connectivity.closed →
      s.state ≠ Connectivity.established →
      async_connect s remote_endpoint
        = (s, [Event.connectCompleted ErrorCode.already_started])) ∧
    (s.multiplexer = true → s.state = Connectivity.closed →
      s.transmit_queue = [] →
      remote_endpoint.address.is_unspecified = false →
      (async_connect s remote_endpoint).1.state = Connectivity.connecting ∧
      (async_connect s remote_endpoint).1.remote = remote_endpoint ∧
      (async_connect s remote_endpoint).1.next_sequence
        = seqNext s.next_sequence ∧
      (async_connect s remote_endpoint).1.transmit_queue
        = [⟨s.next_sequence, 0⟩] ∧
      (async_connect s remote_endpoint).2
        = [Event.multiplexerAdd remote_endpoint, Event.startReceive,
           Event.sentHandshake remote_endpoint s.next_sequence none]) := by
  refine ⟨?_, ?_, ?_, ?_⟩
  · intro hm
    constructor
    · simp [async_connect, hm]
    · simp [async_connect, hm, Event.isSubstrate]
  · intro hm hst
    simp [async_connect, hm, hst]
  · intro hm hst1 hst2
    cases hst : s.state <;>
      simp_all [async_connect]
  · intro hm hst hq hu
    simp [async_connect, hm, hst, hu, send_handshake,
          transmit_queue_push, hq]

/-- C5 witness: the concrete bound, closed socket connecting to a concrete
(non-wildcard) peer transitions to `Connecting`, records the peer, and its
events are exactly the multiplexer registration, receive arming, and the
HANDSHAKE with sequence 100 and no ack. -/
theorem async_connect_spec_witness :
    (async_connect closedSock peerEp).1.state = Connectivity.connecting ∧
    (async_connect closedSock peerEp).1.remote = peerEp ∧
    (async_connect closedSock peerEp).1.next_sequence = seqNext 100 ∧
    (async_connect closedSock peerEp).1.transmit_queue = [⟨100, 0⟩] ∧
    (async_connect closedSock peerEp).2
      = [Event.multiplexerAdd peerEp, Event.startReceive,
         Event.sentHandshake peerEp 100 none] :=
  (async_connect_spec closedSock peerEp).2.2.2 rfl rfl rfl (by decide)

/-- C6 counterexample: on a 5-byte payload received into a 3-byte user
buffer, `copy_buffers_and_process_receive` delivers only 3 bytes into the
caller's buffers but the read completion reports 5 — the full payload size,
not the truncated count, contradicting the claim. -/
theorem copy_report_full_size :
    (copy_buffers_and_process_receive ErrorCode.ok
        [1, 2, 3, 4, 5] 3).1 = [1, 2, 3] ∧
    (copy_buffers_and_process_receive ErrorCode.ok
        [1, 2, 3, 4, 5] 3).2
      = [Event.readCompleted ErrorCode.ok 5] := by decide

/-- C6 (amended): on a completed receive without error, the payload copied
into the caller's buffers is truncated to the buffer length
(`min(buffer, payload)` bytes are delivered), but the receive completion
reports the ORIGINAL payload byte size, not the truncated count. -/
theorem copy_truncates_but_reports_payload_size (error : ErrorCode)
    (payload : List Nat) (user_buffer_size : Nat)
    (h : error = ErrorCode.ok) :
    (copy_buffers_and_process_receive error payload user_buffer_size).1
      = payload.take user_buffer_size ∧
    (copy_buffers_and_process_receive error payload
        user_buffer_size).1.length
      = min user_buffer_size payload.length ∧
    (copy_buffers_and_process_receive error payload user_buffer_size).2
      = [Event.readCompleted error payload.length] := by
  subst h
  simp [copy_buffers_and_process_receive]

/-- C6 witness: the amended statement evaluated on the 5-byte payload and
3-byte buffer: 3 bytes delivered, completion reports 5. -/
theorem copy_truncates_but_reports_payload_size_witness :
    (copy_buffers_and_process_receive ErrorCode.ok
        [9, 8, 7, 6, 5] 3).1 = [9, 8, 7] ∧
    (copy_buffers_and_process_receive ErrorCode.ok
        [9, 8, 7, 6, 5] 3).1.length = min 3 5 ∧
    (copy_buffers_and_process_receive ErrorCode.ok
        [9, 8, 7, 6, 5] 3).2 = [Event.readCompleted ErrorCode.ok 5] := by
  have h := copy_truncates_but_reports_payload_size ErrorCode.ok
    [9, 8, 7, 6, 5] 3 rfl
  exact ⟨h.1, h.2.1, h.2.2⟩

/-- C8: each of `send_handshake`, `send_keepalive` and `send_data`
allocates its datagram's sequence as the current `next_sequence` and
increments `next_sequence` exactly once (modulo `2^W`), and the increment is
a strict advance in the modular order, so `next_sequence` is strictly
monotone per connection. -/
theorem next_sequence_monotone (s : Socket) (remote_endpoint : Endpoint)
    (ack : Option Nat) (payload : List Nat)
    (h : s.next_sequence < seqMod) :
    (send_handshake s remote_endpoint ack).2.1 = s.next_sequence ∧
    (send_handshake s remote_endpoint ack).1.next_sequence
      = seqNext s.next_sequence ∧
    (send_keepalive s remote_endpoint ack).2.1 = s.next_sequence ∧
    (send_keepalive s remote_endpoint ack).1.next_sequence
      = seqNext s.next_sequence ∧
    (send_data s remote_endpoint payload).2.1 = s.next_sequence ∧
    (send_data s remote_endpoint payload).1.next_sequence
      = seqNext s.next_sequence ∧
    seqLess s.next_sequence (seqNext s.next_sequence) = true :=
  ⟨rfl, rfl, rfl, rfl, rfl, rfl, seqLess_seqNext s.next_sequence h⟩

/-- C8 witness: on the concrete established socket with
`next_sequence = 100`, each send primitive allocates 100 and leaves
`next_sequence = 101`, a strict modular advance. -/
theorem next_sequence_monotone_witness :
    (send_handshake estSock peerEp none).2.1 = 100 ∧
    (send_handshake estSock peerEp none).1.next_sequence = seqNext 100 ∧
    (send_keepalive estSock peerEp none).2.1 = 100 ∧
    (send_keepalive estSock peerEp none).1.next_sequence = seqNext 100 ∧
    (send_data estSock peerEp [1, 2]).2.1 = 100 ∧
    (send_data estSock peerEp [1, 2]).1.next_sequence = seqNext 100 ∧
    seqLess 100 (seqNext 100) = true :=
  next_sequence_monotone estSock peerEp none [1, 2] (by decide)

/-- C9: a connect target whose address is unspecified is rewritten, before
being recorded, registered, or sent to, to the loopback address of its
family on the same port: the recorded remote, the multiplexer registration,
and the outgoing HANDSHAKE all use the loopback endpoint. -/
theorem async_connect_unspecified_loopback (s : Socket)
    (remote_endpoint : Endpoint) (hm : s.multiplexer = true)
    (hst : s.state = Connectivity.closed)
    (hu : remote_endpoint.address.is_unspecified = true) :
    (async_connect s remote_endpoint).1.remote
      = { remote_endpoint with address :=
            if remote_endpoint.address.is_v4 then IpAddress.v4_loopback
            else IpAddress.v6_loopback } ∧
    (async_connect s remote_endpoint).2.head?
      = some (Event.multiplexerAdd
          { remote_endpoint with address :=
              if remote_endpoint.address.is_v4 then IpAddress.v4_loopback
              else IpAddress.v6_loopback }) ∧
    (s.transmit_queue = [] →
      (async_connect s remote_endpoint).2
        = [Event.multiplexerAdd
             { remote_endpoint with address :=
                 if remote_endpoint.address.is_v4 then IpAddress.v4_loopback
                 else IpAddress.v6_loopback },
           Event.startReceive,
           Event.sentHandshake
             { remote_endpoint with address :=
                 if remote_endpoint.address.is_v4 then IpAddress.v4_loopback
                 else IpAddress.v6_loopback }
             s.next_sequence none]) := by
  refine ⟨?_, ?_, ?_⟩
  · cases hv : remote_endpoint.address.is_v4 <;>
      simp [async_connect, hm, hst, hu, hv, send_handshake,
            transmit_queue_push]
  · cases hv : remote_endpoint.address.is_v4 <;>
      simp [async_connect, hm, hst, hu, hv, send_handshake,
            transmit_queue_push]
  · intro hq
    cases hv : remote_endpoint.address.is_v4 <;>
      simp [async_connect, hm, hst, hu, hv, send_handshake,
            transmit_queue_push, hq]

/-- C9 witness: connecting the concrete bound, closed socket to the IPv4
wildcard `0.0.0.0:7000` records and sends to `127.0.0.1:7000`. -/
theorem async_connect_unspecified_loopback_witness :
    (async_connect closedSock ⟨IpAddress.v4 0, 7000⟩).1.remote
      = { address := IpAddress.v4_loopback, port := 7000 } ∧
    (async_connect closedSock ⟨IpAddress.v4 0, 7000⟩).2.head?
      = some (Event.multiplexerAdd
          { address := IpAddress.v4_loopback, port := 7000 }) := by
  have h := async_connect_unspecified_loopback closedSock
    ⟨IpAddress.v4 0, 7000⟩ rfl rfl (by decide)
  exact ⟨h.1, h.2.1⟩

/-- The receive-staging invariant: the pending-read queue and the
staged-payload queue are never both non-empty. -/
def queues_invariant (s : Socket) : Prop :=
  s.receive_input_queue = [] ∨ s.receive_output_queue = []

/-- `process_handshake` never touches the receive queues. -/
theorem process_handshake_queues (s : Socket) (initial : Nat)
    (remote_endpoint : Endpoint) (send_result : Option ErrorCode) :
    (process_handshake s initial remote_endpoint
        send_result).1.receive_input_queue = s.receive_input_queue ∧
    (process_handshake s initial remote_endpoint
        send_result).1.receive_output_queue = s.receive_output_queue := by
  cases hst : s.state <;> cases send_result <;>
    simp only [process_handshake, hst, send_handshake, send_keepalive,
               transmit_queue_push, process_handshake_listening_done,
               process_handshake_connecting_done] <;>
    (try split_ifs) <;> simp

/-- `process_acknowledgement` never touches the receive queues. -/
theorem process_acknowledgement_queues (s : Socket) (ack : Nat) :
    (process_acknowledgement s ack).1.receive_input_queue
      = s.receive_input_queue ∧
    (process_acknowledgement s ack).1.receive_output_queue
      = s.receive_output_queue := by
  cases hst : s.state <;>
    simp [process_acknowledgement, hst, transmit_queue_apply_ack]

/-- `async_connect` never touches the receive queues. -/
theorem async_connect_queues (s : Socket) (remote_endpoint : Endpoint) :
    (async_connect s remote_endpoint).1.receive_input_queue
      = s.receive_input_queue ∧
    (async_connect s remote_endpoint).1.receive_output_queue
      = s.receive_output_queue := by
  cases hm : s.multiplexer <;> cases hst : s.state <;>
    simp only [async_connect, hm, hst, send_handshake,
               transmit_queue_push, Bool.not_false, Bool.not_true,
               if_true, if_false] <;>
    (try split_ifs) <;> simp

/-- `async_send` never touches the receive queues. -/
theorem async_send_queues (s : Socket) (payload : List Nat) :
    (async_send s payload).1.receive_input_queue
      = s.receive_input_queue ∧
    (async_send s payload).1.receive_output_queue
      = s.receive_output_queue := by
  cases hm : s.multiplexer <;>
    simp [async_send, hm, send_data, transmit_queue_push]

/-- C7: the receive-staging invariant — `receive_input_queue` and
`receive_output_queue` never both non-empty — is preserved by every socket
operation; moreover `async_receive` enqueues a read request only when the
output queue is empty, and `process_data` enqueues a payload only when the
input queue is empty (when the other queue is non-empty, the queue in
question is left unchanged). -/
theorem receive_queues_invariant_preserved (s : Socket)
    (hinv : queues_invariant s) :
    (∀ n, queues_invariant (async_receive s n).1) ∧
    (∀ error seq payload_size payload,
      queues_invariant
        (process_data s error seq payload_size payload).1) ∧
    (∀ ack, queues_invariant (process_acknowledgement s ack).1) ∧
    (∀ initial remote_endpoint send_result,
      queues_invariant
        (process_handshake s initial remote_endpoint send_result).1) ∧
    (∀ remote_endpoint,
      queues_invariant (async_connect s remote_endpoint).1) ∧
    (∀ payload, queues_invariant (async_send s payload).1) ∧
    (∀ n, s.receive_output_queue ≠ [] →
      (async_receive s n).1.receive_input_queue
        = s.receive_input_queue) ∧
    (∀ error seq payload_size payload, s.receive_input_queue ≠ [] →
      (process_data s error seq payload_size
          payload).1.receive_output_queue
        = s.receive_output_queue) := by
  refine ⟨?_, ?_, ?_, ?_, ?_, ?_, ?_, ?_⟩
  · intro n
    cases hm : s.multiplexer
    · simpa [async_receive, hm] using hinv
    · cases hq : s.receive_output_queue with
      | nil => simp [async_receive, hm, hq, queues_invariant]
      | cons o rest =>
        have hin : s.receive_input_queue = [] := by
          rcases hinv with h | h
          · exact h
          · rw [hq] at h
            cases h
        simp [async_receive, hm, hq, queues_invariant, hin,
              copy_buffers_and_process_receive]
  · intro error seq payload_size payload
    cases hexp : is_expected_packet s seq
    · simpa [process_data, hexp] using hinv
    · cases hq : s.receive_input_queue with
      | nil => simp [process_data, hexp, hq, queues_invariant]
      | cons i rest =>
        have hout : s.receive_output_queue = [] := by
          rcases hinv with h | h
          · rw [hq] at h
            cases h
          · exact h
        simp [process_data, hexp, hq, queues_invariant,
              send_keepalive, hout]
  · intro ack
    unfold queues_invariant at hinv ⊢
    rw [(process_acknowledgement_queues s ack).1,
        (process_acknowledgement_queues s ack).2]
    exact hinv
  · intro initial remote_endpoint send_result
    unfold queues_invariant at hinv ⊢
    rw [(process_handshake_queues s initial remote_endpoint
          send_result).1,
        (process_handshake_queues s initial remote_endpoint
          send_result).2]
    exact hinv
  · intro remote_endpoint
    unfold queues_invariant at hinv ⊢
    rw [(async_connect_queues s remote_endpoint).1,
        (async_connect_queues s remote_endpoint).2]
    exact hinv
  · intro payload
    unfold queues_invariant at hinv ⊢
    rw [(async_send_queues s payload).1,
        (async_send_queues s payload).2]
    exact hinv
  · intro n hq
    cases hm : s.multiplexer
    · simp [async_receive, hm]
    · cases hqq : s.receive_output_queue with
      | nil => exact absurd hqq hq
      | cons o rest =>
        simp [async_receive, hm, hqq,
              copy_buffers_and_process_receive]
  · intro error seq payload_size payload hq
    cases hexp : is_expected_packet s seq
    · simp [process_data, hexp]
    · cases hqq : s.receive_input_queue with
      | nil => exact absurd hqq hq
      | cons i rest =>
        simp [process_data, hexp, hqq, send_keepalive]

/-- C7 witness: the invariant holds on the concrete established socket and
is preserved by a receive request and by an accepted in-order datagram. -/
theorem receive_queues_invariant_preserved_witness :
    queues_invariant estSock ∧
    queues_invariant (async_receive estSock 16).1 ∧
    queues_invariant
      (process_data estSock ErrorCode.ok 6 3 (some [1, 2, 3])).1 :=
  ⟨Or.inl rfl,
   (receive_queues_invariant_preserved estSock (Or.inl rfl)).1 16,
   (receive_queues_invariant_preserved estSock (Or.inl rfl)).2.1
     ErrorCode.ok 6 3 (some [1, 2, 3])⟩

end Crux
